import Mathlib

/-!
Verification of the client-side orchestration layer of the AI-Driven LCA Tool
(Svelte frontend).  The development shallowly embeds, as pure Lean functions:

* `validateProcessInput` from the utilities module (frontend utils);
* the form-submission conversions `handleSubmit` / `addToComparison` and the
  comparison-queue dispatch `runComparison` from the ProcessInput component;
* the page-level state transformers `handleProcessAnalysis`,
  `handleComparisonRequest`, `setActiveTab`, `loadStoredComparisons` from
  the main route component;
* the request configuration and error rethrowing of the ApiService wrapper.

JavaScript runtime conventions that matter here are made explicit: form select
fields hold strings (empty string when unset), numeric form fields hold a
rational number or nothing (Svelte numeric bindings), and JavaScript truthiness
makes both the absent value and the number 0 falsy.  Asynchronous calls are
embedded by passing each remote outcome as an explicit `Except` parameter to
the state transformer that awaits it.
-/

namespace LCATool

/-- Truthiness of a JavaScript number-or-null value: `null` and `0` are falsy. -/
def truthyNum : Option ℚ → Bool
  | none => false
  | some q => decide (q ≠ 0)

/-- JavaScript comparison `x <= 0` on a number-or-null value (`null` coerces to 0). -/
def jsLeZero (x : Option ℚ) : Bool := decide ((x.getD 0) ≤ 0)

/-- JavaScript comparison `x < 0` on a number-or-null value. -/
def jsLtZero (x : Option ℚ) : Bool := decide ((x.getD 0) < 0)

/-- JavaScript comparison `x > 100` on a number-or-null value. -/
def jsGtHundred (x : Option ℚ) : Bool := decide ((100 : ℚ) < x.getD 0)

/-- The process-description form data (`processData` in the ProcessInput
component): select fields are strings (empty when unset), numeric inputs are
a rational or absent. -/
structure ProcessInput where
  metal_type : String
  process_route : String
  production_capacity : Option ℚ
  energy_source : String
  energy_consumption : Option ℚ
  transport_distance : Option ℚ
  processing_location : String
  ore_grade : Option ℚ
  end_of_life_option : String
  recycling_rate : Option ℚ
deriving DecidableEq, Repr

/-- Result record of `validateProcessInput`: the `errors` object is modelled as
an association list in insertion order (field name, message). -/
structure ValidationResult where
  isValid : Bool
  errors : List (String × String)
deriving DecidableEq, Repr

/-- Embedding of `validateProcessInput` from the utilities module: each guard of
the source appends (at most) one keyed message, in source order, and `isValid`
is computed as emptiness of the accumulated `errors` object. -/
def validateProcessInput (input : ProcessInput) : ValidationResult :=
  let errors : List (String × String) :=
    (if input.metal_type == "" then [("metal_type", "Metal type is required")] else []) ++
    (if input.process_route == "" then [("process_route", "Process route is required")] else []) ++
    (if !truthyNum input.production_capacity || jsLeZero input.production_capacity then
      [("production_capacity", "Production capacity must be greater than 0")] else []) ++
    (if input.energy_source == "" then [("energy_source", "Energy source is required")] else []) ++
    (if input.processing_location == "" then [("processing_location", "Processing location is required")] else []) ++
    (if input.end_of_life_option == "" then [("end_of_life_option", "End of life option is required")] else []) ++
    (if truthyNum input.energy_consumption && jsLtZero input.energy_consumption then
      [("energy_consumption", "Energy consumption cannot be negative")] else []) ++
    (if truthyNum input.transport_distance && jsLtZero input.transport_distance then
      [("transport_distance", "Transport distance cannot be negative")] else []) ++
    (if truthyNum input.ore_grade && (jsLtZero input.ore_grade || jsGtHundred input.ore_grade) then
      [("ore_grade", "Ore grade must be between 0 and 100")] else []) ++
    (if truthyNum input.recycling_rate && (jsLtZero input.recycling_rate || jsGtHundred input.recycling_rate) then
      [("recycling_rate", "Recycling rate must be between 0 and 100")] else [])
  { isValid := errors.isEmpty, errors := errors }

/-- The required fields a given input is missing, in the check order of the
source (a select field is missing when it is the empty string, the numeric
required field when it is absent). -/
def missingRequired (i : ProcessInput) : List String :=
  (if i.metal_type == "" then ["metal_type"] else []) ++
  (if i.process_route == "" then ["process_route"] else []) ++
  (if i.production_capacity.isSome then [] else ["production_capacity"]) ++
  (if i.energy_source == "" then ["energy_source"] else []) ++
  (if i.processing_location == "" then ["processing_location"] else []) ++
  (if i.end_of_life_option == "" then ["end_of_life_option"] else [])

/-- Every present bounded field of the input satisfies its declared range. -/
def RangeOk (i : ProcessInput) : Prop :=
  (∀ q, i.production_capacity = some q → 0 < q) ∧
  (∀ q, i.energy_consumption = some q → 0 ≤ q) ∧
  (∀ q, i.transport_distance = some q → 0 ≤ q) ∧
  (∀ q, i.ore_grade = some q → 0 ≤ q ∧ q ≤ 100) ∧
  (∀ q, i.recycling_rate = some q → 0 ≤ q ∧ q ≤ 100)

/-- All six required fields are present, `production_capacity` positive, and the
three bounded optionals other than `ore_grade` in range when present. -/
def OtherwiseValid (i : ProcessInput) : Prop :=
  i.metal_type ≠ "" ∧ i.process_route ≠ "" ∧ i.energy_source ≠ "" ∧
  i.processing_location ≠ "" ∧ i.end_of_life_option ≠ "" ∧
  (∃ q, i.production_capacity = some q ∧ 0 < q) ∧
  (∀ q, i.energy_consumption = some q → 0 ≤ q) ∧
  (∀ q, i.transport_distance = some q → 0 ≤ q) ∧
  (∀ q, i.recycling_rate = some q → 0 ≤ q ∧ q ≤ 100)

end LCATool

namespace LCATool

lemma truthyNum_some_of_pos {q : ℚ} (h : 0 < q) : truthyNum (some q) = true := by
  simp [truthyNum, ne_of_gt h]

lemma jsLeZero_some_false {q : ℚ} (h : 0 < q) : jsLeZero (some q) = false := by
  simp [jsLeZero, h]

lemma jsLtZero_some_false {q : ℚ} (h : 0 ≤ q) : jsLtZero (some q) = false := by
  simp [jsLtZero, h]

lemma jsGtHundred_some_false {q : ℚ} (h : q ≤ 100) : jsGtHundred (some q) = false := by
  simp [jsGtHundred, h]

/-- The positivity check on `production_capacity` fires exactly on absence when
every present value is positive. -/
lemma pc_seg_map (x : Option ℚ) (h : ∀ q, x = some q → 0 < q) :
    ((if !truthyNum x || jsLeZero x then
        [("production_capacity", "Production capacity must be greater than 0")] else
        ([] : List (String × String))).map Prod.fst)
      = (if x.isSome then [] else ["production_capacity"]) := by
  cases hx : x with
  | none => simp [truthyNum, jsLeZero]
  | some q =>
      have hq := h q hx
      simp [truthyNum_some_of_pos hq, jsLeZero_some_false hq]

/-- A nonnegativity check never fires on an in-range optional field. -/
lemma nonneg_seg_false (x : Option ℚ) (h : ∀ q, x = some q → 0 ≤ q) :
    (truthyNum x && jsLtZero x) = false := by
  cases hx : x with
  | none => simp [truthyNum]
  | some q => simp [jsLtZero_some_false (h q hx)]

/-- A percentage-range check never fires on an in-range optional field. -/
lemma range_seg_false (x : Option ℚ) (h : ∀ q, x = some q → 0 ≤ q ∧ q ≤ 100) :
    (truthyNum x && (jsLtZero x || jsGtHundred x)) = false := by
  cases hx : x with
  | none => simp [truthyNum]
  | some q => simp [jsLtZero_some_false (h q hx).1, jsGtHundred_some_false (h q hx).2]

/-- Under in-range present fields, the error keys of `validateProcessInput` are
exactly the missing required fields, in order. -/
lemma errors_keys_of_rangeOk (i : ProcessInput) (hr : RangeOk i) :
    (validateProcessInput i).errors.map Prod.fst = missingRequired i := by
  obtain ⟨hpc, hec, htd, hog, hrr⟩ := hr
  unfold validateProcessInput missingRequired
  simp only [List.map_append]
  rw [pc_seg_map i.production_capacity hpc, nonneg_seg_false i.energy_consumption hec,
    nonneg_seg_false i.transport_distance htd, range_seg_false i.ore_grade hog,
    range_seg_false i.recycling_rate hrr]
  cases h1 : (i.metal_type == "") <;>
    cases h2 : (i.process_route == "") <;>
      cases h3 : (i.energy_source == "") <;>
        cases h4 : (i.processing_location == "") <;>
          cases h5 : (i.end_of_life_option == "") <;>
            simp

/-- C10: for every input, `validateProcessInput` reports `isValid = true`
exactly when the errors object is empty — the two outputs can never disagree.
The embedding is a total pure function on an immutable record, matching that
the source neither throws nor mutates its argument. -/
theorem validate_isValid_iff_no_errors (i : ProcessInput) :
    (validateProcessInput i).isValid = true ↔ (validateProcessInput i).errors = [] := by
  have h : (validateProcessInput i).isValid = (validateProcessInput i).errors.isEmpty := rfl
  rw [h, List.isEmpty_iff]

/-- C4: when every present bounded field is in range and at least one required
field is missing, `validateProcessInput` reports invalid with error keys exactly
the missing required fields, one message per missing field. -/
theorem validate_missing_required_exact (i : ProcessInput)
    (hr : RangeOk i) (hm : missingRequired i ≠ []) :
    (validateProcessInput i).isValid = false ∧
      (validateProcessInput i).errors.map Prod.fst = missingRequired i := by
  have hk := errors_keys_of_rangeOk i hr
  refine ⟨?_, hk⟩
  have herr : (validateProcessInput i).errors ≠ [] := by
    intro h
    apply hm
    rw [← hk, h]
    rfl
  have h : (validateProcessInput i).isValid = (validateProcessInput i).errors.isEmpty := rfl
  rw [h]
  simpa [List.isEmpty_iff] using herr

/-- Concrete input for the C4 witness: metal type and energy source missing,
every present field in range. -/
def exC4 : ProcessInput :=
  { metal_type := "", process_route := "Primary", production_capacity := some 7500,
    energy_source := "", energy_consumption := some 45, transport_distance := some 125,
    processing_location := "Odisha, India", ore_grade := some (3/2),
    end_of_life_option := "Recycling", recycling_rate := some 65 }

theorem validate_missing_required_exact_witness :
    (validateProcessInput exC4).isValid = false ∧
      (validateProcessInput exC4).errors.map Prod.fst = ["metal_type", "energy_source"] := by
  have hr : RangeOk exC4 := by
    refine ⟨?_, ?_, ?_, ?_, ?_⟩ <;> intro q h <;>
      simp only [exC4, Option.some.injEq] at h <;> subst h <;> norm_num
  have hm : missingRequired exC4 ≠ [] := by decide
  obtain ⟨h1, h2⟩ := validate_missing_required_exact exC4 hr hm
  exact ⟨h1, by rw [h2]; rfl⟩

/-- C5: an otherwise-valid input with `ore_grade = 150` is rejected with exactly
the `ore_grade` key; and each bounded field present with an out-of-range value
contributes its key to the errors map unconditionally, independent of all other
checks (no short-circuit: every violation surfaces in one pass). -/
theorem validate_range_violations_reported (i : ProcessInput) :
    (OtherwiseValid i → i.ore_grade = some 150 →
      (validateProcessInput i).isValid = false ∧
        (validateProcessInput i).errors.map Prod.fst = ["ore_grade"]) ∧
    (∀ q, i.production_capacity = some q → q ≤ 0 →
      "production_capacity" ∈ (validateProcessInput i).errors.map Prod.fst) ∧
    (∀ q, i.energy_consumption = some q → q < 0 →
      "energy_consumption" ∈ (validateProcessInput i).errors.map Prod.fst) ∧
    (∀ q, i.transport_distance = some q → q < 0 →
      "transport_distance" ∈ (validateProcessInput i).errors.map Prod.fst) ∧
    (∀ q, i.ore_grade = some q → (q < 0 ∨ 100 < q) →
      "ore_grade" ∈ (validateProcessInput i).errors.map Prod.fst) ∧
    (∀ q, i.recycling_rate = some q → (q < 0 ∨ 100 < q) →
      "recycling_rate" ∈ (validateProcessInput i).errors.map Prod.fst) := by
  refine ⟨?_, ?_, ?_, ?_, ?_, ?_⟩
  · rintro ⟨h1, h2, h3, h4, h5, ⟨qc, hqc, hqcpos⟩, hec, htd, hrr⟩ hog
    have e1 : (i.metal_type == "") = false := by simp [h1]
    have e2 : (i.process_route == "") = false := by simp [h2]
    have e3 : (i.energy_source == "") = false := by simp [h3]
    have e4 : (i.processing_location == "") = false := by simp [h4]
    have e5 : (i.end_of_life_option == "") = false := by simp [h5]
    have epc : (!truthyNum i.production_capacity || jsLeZero i.production_capacity) = false := by
      rw [hqc]
      simp [truthyNum_some_of_pos hqcpos, jsLeZero_some_false hqcpos]
    have eec := nonneg_seg_false i.energy_consumption hec
    have etd := nonneg_seg_false i.transport_distance htd
    have err := range_seg_false i.recycling_rate hrr
    have eog : (truthyNum i.ore_grade && (jsLtZero i.ore_grade || jsGtHundred i.ore_grade)) = true := by
      rw [hog]
      simp only [truthyNum, jsLtZero, jsGtHundred, Option.getD_some]
      norm_num
    constructor
    · have h : (validateProcessInput i).isValid = (validateProcessInput i).errors.isEmpty := rfl
      rw [h]
      unfold validateProcessInput
      simp [e1, e2, e3, e4, e5, epc, eec, etd, err, eog]
    · unfold validateProcessInput
      simp [e1, e2, e3, e4, e5, epc, eec, etd, err, eog]
  · intro q h hq
    have hc : (!truthyNum i.production_capacity || jsLeZero i.production_capacity) = true := by
      rw [h]
      simp [jsLeZero, hq]
    unfold validateProcessInput
    simp [hc, List.mem_append]
  · intro q h hq
    have hc : (truthyNum i.energy_consumption && jsLtZero i.energy_consumption) = true := by
      rw [h]
      simp [truthyNum, jsLtZero, hq, ne_of_lt hq]
    unfold validateProcessInput
    simp [hc, List.mem_append]
  · intro q h hq
    have hc : (truthyNum i.transport_distance && jsLtZero i.transport_distance) = true := by
      rw [h]
      simp [truthyNum, jsLtZero, hq, ne_of_lt hq]
    unfold validateProcessInput
    simp [hc, List.mem_append]
  · intro q h hq
    have hc : (truthyNum i.ore_grade && (jsLtZero i.ore_grade || jsGtHundred i.ore_grade)) = true := by
      rw [h]
      rcases hq with hq | hq
      · simp [truthyNum, jsLtZero, hq, ne_of_lt hq]
      · have : q ≠ 0 := by positivity
        simp [truthyNum, jsGtHundred, hq, this]
    unfold validateProcessInput
    simp [hc, List.mem_append]
  · intro q h hq
    have hc : (truthyNum i.recycling_rate && (jsLtZero i.recycling_rate || jsGtHundred i.recycling_rate)) = true := by
      rw [h]
      rcases hq with hq | hq
      · simp [truthyNum, jsLtZero, hq, ne_of_lt hq]
      · have : q ≠ 0 := by positivity
        simp [truthyNum, jsGtHundred, hq, this]
    unfold validateProcessInput
    simp [hc, List.mem_append]

/-- Concrete input for the C5 witness, first part: otherwise valid, ore grade 150. -/
def exC5 : ProcessInput :=
  { metal_type := "Aluminium", process_route := "Primary", production_capacity := some 7500,
    energy_source := "Mixed (Coal + Solar)", energy_consumption := some 45,
    transport_distance := some 125, processing_location := "Odisha, India",
    ore_grade := some 150, end_of_life_option := "Recycling", recycling_rate := some 65 }

/-- Concrete input for the C5 witness, second part: five simultaneous range
violations, all of which must be reported in the single pass. -/
def exC5bad : ProcessInput :=
  { metal_type := "Copper", process_route := "Recycled", production_capacity := some (-5),
    energy_source := "Coal", energy_consumption := some (-1),
    transport_distance := some (-2), processing_location := "Khetri, Rajasthan",
    ore_grade := some 150, end_of_life_option := "Landfill", recycling_rate := some 101 }

theorem validate_range_violations_reported_witness :
    ((validateProcessInput exC5).isValid = false ∧
      (validateProcessInput exC5).errors.map Prod.fst = ["ore_grade"]) ∧
    ("production_capacity" ∈ (validateProcessInput exC5bad).errors.map Prod.fst ∧
      "energy_consumption" ∈ (validateProcessInput exC5bad).errors.map Prod.fst ∧
      "transport_distance" ∈ (validateProcessInput exC5bad).errors.map Prod.fst ∧
      "ore_grade" ∈ (validateProcessInput exC5bad).errors.map Prod.fst ∧
      "recycling_rate" ∈ (validateProcessInput exC5bad).errors.map Prod.fst) := by
  constructor
  · have hov : OtherwiseValid exC5 := by
      refine ⟨by simp [exC5], by simp [exC5], by simp [exC5], by simp [exC5], by simp [exC5],
        ⟨7500, rfl, by norm_num⟩, ?_, ?_, ?_⟩ <;> intro q h <;>
        simp only [exC5, Option.some.injEq] at h <;> subst h <;> norm_num
    exact (validate_range_violations_reported exC5).1 hov rfl
  · refine ⟨(validate_range_violations_reported exC5bad).2.1 (-5) rfl (by norm_num),
      (validate_range_violations_reported exC5bad).2.2.1 (-1) rfl (by norm_num),
      (validate_range_violations_reported exC5bad).2.2.2.1 (-2) rfl (by norm_num),
      (validate_range_violations_reported exC5bad).2.2.2.2.1 150 rfl (by norm_num),
      (validate_range_violations_reported exC5bad).2.2.2.2.2 101 rfl (by norm_num)⟩

/-! ### ProcessInput component: submission conversion and comparison queue -/

/-- The payload dispatched for one process after conversion: required selects
pass through as strings, `production_capacity` is parsed to a number, and each
optional numeric field is either a number or `null`. -/
structure SubmittedProcess where
  metal_type : String
  process_route : String
  production_capacity : ℚ
  energy_source : String
  energy_consumption : Option ℚ
  transport_distance : Option ℚ
  processing_location : String
  ore_grade : Option ℚ
  end_of_life_option : String
  recycling_rate : Option ℚ
deriving DecidableEq, Repr

/-- The conversion `x ? parseFloat(x) : null` applied to each optional numeric
field on submission: a JavaScript-falsy value (absent or the number 0) becomes
`null`, anything else parses to itself. -/
def submittedOptional (x : Option ℚ) : Option ℚ :=
  if truthyNum x then x else none

/-- The `processedData` object built by `handleSubmit` from the form data. -/
def handleSubmitPayload (processData : ProcessInput) : SubmittedProcess :=
  { metal_type := processData.metal_type,
    process_route := processData.process_route,
    production_capacity := processData.production_capacity.getD 0,
    energy_source := processData.energy_source,
    energy_consumption := submittedOptional processData.energy_consumption,
    transport_distance := submittedOptional processData.transport_distance,
    processing_location := processData.processing_location,
    ore_grade := submittedOptional processData.ore_grade,
    end_of_life_option := processData.end_of_life_option,
    recycling_rate := submittedOptional processData.recycling_rate }

/-- Embedding of `handleSubmit`: validate, and only on success dispatch the
converted payload (`some` is the dispatched `analyzeProcess` event, `none`
means no dispatch — the errors are shown inline instead). -/
def handleSubmit (processData : ProcessInput) : Option SubmittedProcess :=
  let validation := validateProcessInput processData
  if validation.isValid then some (handleSubmitPayload processData) else none

/-- A queued comparison candidate: the converted payload plus the synthesized
display name. -/
structure NamedProcess where
  name : String
  payload : SubmittedProcess
deriving DecidableEq, Repr

/-- The `processedData` object built by `addToComparison`, including the name
synthesized as `` `${metal_type} - ${process_route}` ``. -/
def addToComparisonPayload (processData : ProcessInput) : NamedProcess :=
  { name := processData.metal_type ++ " - " ++ processData.process_route,
    payload := handleSubmitPayload processData }

/-- Local state of the ProcessInput component touched by the comparison queue. -/
structure CompareFormState where
  comparisonProcesses : List NamedProcess
  showComparison : Bool
  errors : List (String × String)
deriving DecidableEq, Repr

/-- Embedding of `addToComparison`: on valid input append the converted, named
payload to the queue and show the comparison panel; on invalid input surface
the field errors and leave the queue untouched. -/
def addToComparison (processData : ProcessInput) (st : CompareFormState) : CompareFormState :=
  let validation := validateProcessInput processData
  if validation.isValid then
    { st with comparisonProcesses := st.comparisonProcesses ++ [addToComparisonPayload processData],
              showComparison := true }
  else
    { st with errors := validation.errors }

/-- Embedding of `runComparison`: dispatch the whole queue as the
`compareProcesses` event when it holds at least two entries, otherwise do
nothing at all (`none`: no event, no network call, and the component state is
untouched either way — the function only reads the queue). -/
def runComparison (comparisonProcesses : List NamedProcess) : Option (List NamedProcess) :=
  if 2 ≤ comparisonProcesses.length then some comparisonProcesses else none

/-- Error taxonomy of the precondition failure described by the specification. -/
inductive SubmitError where
  | insufficientEntries
deriving DecidableEq, Repr

/-- Modelled from the spec: the Comparison Queue Manager submit operation,
which fails with the precondition error `InsufficientEntries` unless the queue
holds at least 2 entries and otherwise dispatches the whole queue. -/
def runComparisonSpec (queue : List NamedProcess) : Except SubmitError (List NamedProcess) :=
  if 2 ≤ queue.length then .ok queue else .error .insufficientEntries

/-- Concrete valid form input whose `energy_consumption` is the present value 0
(allowed by the numeric input, which has `min 0`). -/
def exC3 : ProcessInput :=
  { metal_type := "Aluminium", process_route := "Primary", production_capacity := some 7500,
    energy_source := "Mixed (Coal + Solar)", energy_consumption := some 0,
    transport_distance := none, processing_location := "Odisha, India",
    ore_grade := none, end_of_life_option := "Recycling", recycling_rate := none }

/-- C3 counterexample: on a valid submission whose `energy_consumption` is the
present value 0, `handleSubmit` dispatches (the input passes validation) but the
dispatched payload carries `null` for that field — a present value was silently
converted into the absent/predict marker, because the conversion guards on
JavaScript truthiness and the number 0 is falsy. -/
theorem optional_zero_becomes_predict_counterexample :
    exC3.energy_consumption = some 0 ∧
      (handleSubmit exC3).map (fun sp => sp.energy_consumption) = some none := by
  constructor
  · rfl
  · decide

/-- C3 amended: the conversion used by both `handleSubmit` and
`addToComparison` sends a present nonzero value through unmodified and sends
absence to `null`, but it also sends the present value 0 to `null` — absence is
never turned into a number, while the falsy present value 0 is collapsed into
the predict marker.  Both payload builders apply exactly this conversion to all
four optional fields and pass the categorical fields through unchanged. -/
theorem optional_fields_passthrough (x : Option ℚ) :
    (∀ q, q ≠ 0 → x = some q → submittedOptional x = some q) ∧
    (x = none → submittedOptional x = none) ∧
    submittedOptional (some 0) = none ∧
    (∀ pd : ProcessInput,
      (handleSubmitPayload pd).energy_consumption = submittedOptional pd.energy_consumption ∧
      (handleSubmitPayload pd).transport_distance = submittedOptional pd.transport_distance ∧
      (handleSubmitPayload pd).ore_grade = submittedOptional pd.ore_grade ∧
      (handleSubmitPayload pd).recycling_rate = submittedOptional pd.recycling_rate ∧
      (addToComparisonPayload pd).payload = handleSubmitPayload pd ∧
      (handleSubmitPayload pd).metal_type = pd.metal_type ∧
      (handleSubmitPayload pd).energy_source = pd.energy_source) := by
  refine ⟨?_, ?_, ?_, ?_⟩
  · intro q hq hx
    subst hx
    simp [submittedOptional, truthyNum, hq]
  · rintro rfl
    rfl
  · rfl
  · intro pd
    exact ⟨rfl, rfl, rfl, rfl, rfl, rfl, rfl⟩

theorem optional_fields_passthrough_witness :
    submittedOptional (some 5) = some 5 ∧ submittedOptional none = none ∧
      submittedOptional (some 0) = none ∧
      (handleSubmitPayload exC3).recycling_rate = submittedOptional exC3.recycling_rate :=
  ⟨(optional_fields_passthrough (some 5)).1 5 (by norm_num) rfl,
   (optional_fields_passthrough none).2.1 rfl,
   (optional_fields_passthrough (some 0)).2.2.1,
   ((optional_fields_passthrough (some 0)).2.2.2 exC3).2.2.2.1⟩

/-- A concrete queued entry for the C8 witness. -/
def exNamed : NamedProcess := addToComparisonPayload exC3

/-- C8: `runComparison` on a queue shorter than 2 dispatches nothing (no event,
hence no network call; the pure function leaves the queue untouched) — exactly
the inputs on which the specified submit operation fails with
`InsufficientEntries`; on a queue of at least 2 it dispatches the whole queue,
in order, as the compare request. -/
theorem runComparison_precondition (queue : List NamedProcess) :
    (queue.length < 2 →
      runComparison queue = none ∧
        runComparisonSpec queue = .error .insufficientEntries) ∧
    (2 ≤ queue.length →
      runComparison queue = some queue ∧ runComparisonSpec queue = .ok queue) := by
  constructor
  · intro h
    have h2 : ¬ 2 ≤ queue.length := by omega
    simp [runComparison, runComparisonSpec, h2]
  · intro h
    simp [runComparison, runComparisonSpec, h]

theorem runComparison_precondition_witness :
    (runComparison [exNamed] = none ∧
      runComparisonSpec [exNamed] = .error .insufficientEntries) ∧
    (runComparison [exNamed, exNamed] = some [exNamed, exNamed] ∧
      runComparisonSpec [exNamed, exNamed] = .ok [exNamed, exNamed]) :=
  ⟨(runComparison_precondition [exNamed]).1 (by simp),
   (runComparison_precondition [exNamed, exNamed]).2 (by simp)⟩

/-! ### Main route component: page state and handlers

The page holds the process result types opaquely, so the embedding is
parametric in the process type `P`, the LCA result type `A` and the
circularity record type `C`.  Each awaited remote call is passed in as an
explicit `Except` outcome. -/

/-- A JavaScript `Error` as thrown by the ApiService wrapper: it carries only a
message string. -/
structure JsError where
  message : String
deriving DecidableEq, Repr

/-- A toast notification: message and type tag. -/
structure Toast where
  message : String
  toastType : String
deriving DecidableEq, Repr

/-- The canonical comparison record `{ process, lca }`. -/
structure ComparisonEntry (P A : Type) where
  process : P
  lca : A
deriving DecidableEq, Repr

/-- One element of a stored-analyses listing: `{ input, results }`. -/
structure AnalysisEntry (P A : Type) where
  input : P
  results : A
deriving DecidableEq, Repr

/-- Response payload of the stored-comparisons endpoint as read by
`loadStoredComparisons`: an optional `analyses` array. -/
structure StoredPayload (P A : Type) where
  analyses : Option (List (AnalysisEntry P A))
deriving DecidableEq, Repr

/-- Response payload of the compare endpoint as read by
`handleComparisonRequest`: optional `scenarios` and `comparisons` arrays
(either key may be absent). -/
structure ComparePayload (E : Type) where
  scenarios : Option (List E)
  comparisons : Option (List E)
deriving DecidableEq, Repr

/-- The mutable page-level state of the main route component. -/
structure PageState (P A C : Type) where
  activeTab : String
  isLoading : Bool
  currentResults : Option A
  currentCircularity : Option C
  comparisons : List (ComparisonEntry P A)
  toasts : List Toast
deriving DecidableEq, Repr

/-- Embedding of `handleProcessAnalysis`: set loading, await the LCA call and
store its result, then await the circularity call and store its result, switch
to the results tab and toast success; on either failure toast the error; the
`finally` clause clears loading on every path.  The assignment to
`currentResults` happens before the circularity call is awaited, exactly as in
the source. -/
def handleProcessAnalysis {P A C : Type} (s : PageState P A C)
    (lcaOutcome : Except JsError A) (circOutcome : Except JsError C) :
    PageState P A C :=
  let s0 := { s with isLoading := true }
  match lcaOutcome with
  | .error e =>
      { s0 with isLoading := false,
                toasts := s0.toasts ++ [⟨"Analysis failed: " ++ e.message, "error"⟩] }
  | .ok r =>
      let s1 := { s0 with currentResults := some r }
      match circOutcome with
      | .error e =>
          { s1 with isLoading := false,
                    toasts := s1.toasts ++ [⟨"Analysis failed: " ++ e.message, "error"⟩] }
      | .ok c =>
          { s1 with currentCircularity := some c,
                    activeTab := "results",
                    isLoading := false,
                    toasts := s1.toasts ++ [⟨"Analysis completed successfully!", "success"⟩] }

/-- Embedding of `handleComparisonRequest`: on success store
`result.scenarios || result.comparisons || []` (a JavaScript array, even empty,
is truthy, so the leftmost present key wins), switch to the comparison tab and
toast success; on failure toast the error; loading is cleared on every path. -/
def handleComparisonRequest {P A C : Type} (s : PageState P A C)
    (outcome : Except JsError (ComparePayload (ComparisonEntry P A))) :
    PageState P A C :=
  let s0 := { s with isLoading := true }
  match outcome with
  | .ok result =>
      { s0 with comparisons := (result.scenarios.or result.comparisons).getD [],
                activeTab := "comparison",
                isLoading := false,
                toasts := s0.toasts ++ [⟨"Process comparison completed!", "success"⟩] }
  | .error e =>
      { s0 with isLoading := false,
                toasts := s0.toasts ++ [⟨"Comparison failed: " ++ e.message, "error"⟩] }

/-- Embedding of `loadStoredComparisons`: on a successful fetch whose
`analyses` array holds at least 2 elements, remap each `{input, results}` to
`{process, lca}`; otherwise (shorter array, missing key, or a failed fetch,
which the catch block handles) store the empty list. -/
def loadStoredComparisons {P A C : Type} (s : PageState P A C)
    (fetchOutcome : Except JsError (StoredPayload P A)) : PageState P A C :=
  match fetchOutcome with
  | .ok result =>
      match result.analyses with
      | some xs =>
          if 2 ≤ xs.length then
            { s with comparisons := xs.map fun a => ⟨a.input, a.results⟩ }
          else
            { s with comparisons := [] }
      | none => { s with comparisons := [] }
  | .error _ => { s with comparisons := [] }

/-- Embedding of `setActiveTab`: set the tab, and when (and only when) the new
tab is `comparison`, fetch and normalize the stored analyses.  The returned
flag records whether the stored-comparisons fetch was issued. -/
def setActiveTab {P A C : Type} (s : PageState P A C) (tabId : String)
    (fetchOutcome : Except JsError (StoredPayload P A)) : PageState P A C × Bool :=
  let s1 := { s with activeTab := tabId }
  if tabId == "comparison" then (loadStoredComparisons s1 fetchOutcome, true)
  else (s1, false)

/-- A fresh page state, as at session start. -/
def s0 : PageState ℕ ℕ ℕ :=
  { activeTab := "input", isLoading := false, currentResults := none,
    currentCircularity := none, comparisons := [], toasts := [] }

/-- C1 counterexample: starting from a fresh page state, a run whose LCA stage
succeeds (result 7) and whose circularity stage fails leaves `currentResults`
holding the LCA result — the partial result is not discarded, because the
source assigns `currentResults` before awaiting the circularity call — so the
operation is not all-or-nothing; loading is cleared. -/
theorem runAnalysis_allornothing_counterexample :
    (handleProcessAnalysis s0 (.ok 7) (.error ⟨"circularity backend down"⟩)).currentResults
        = some 7 ∧
      (handleProcessAnalysis s0 (.ok 7) (.error ⟨"circularity backend down"⟩)).currentResults
        ≠ none ∧
      (handleProcessAnalysis s0 (.ok 7) (.error ⟨"circularity backend down"⟩)).isLoading
        = false := by
  refine ⟨rfl, ?_, rfl⟩
  decide

/-- C1 amended: when the LCA stage succeeds and the circularity stage fails,
`busy` is cleared, but the stored LCA result is retained (set to the fresh
stage-2 result), while the tab and the previously stored circularity data are
unchanged and the failure is toasted — the partial LCA result survives. -/
theorem runAnalysis_circ_failure_keeps_lca {P A C : Type}
    (s : PageState P A C) (r : A) (e : JsError) :
    (handleProcessAnalysis s (.ok r) (.error e)).currentResults = some r ∧
      (handleProcessAnalysis s (.ok r) (.error e)).isLoading = false ∧
      (handleProcessAnalysis s (.ok r) (.error e)).activeTab = s.activeTab ∧
      (handleProcessAnalysis s (.ok r) (.error e)).currentCircularity = s.currentCircularity ∧
      (handleProcessAnalysis s (.ok r) (.error e)).toasts
        = s.toasts ++ [⟨"Analysis failed: " ++ e.message, "error"⟩] :=
  ⟨rfl, rfl, rfl, rfl, rfl⟩

/-- A page state holding a just-computed live comparison result. -/
def sLive : PageState ℕ ℕ ℕ :=
  { activeTab := "input", isLoading := false, currentResults := none,
    currentCircularity := none, comparisons := [⟨1, 10⟩, ⟨2, 20⟩], toasts := [] }

/-- C2 counterexample: with a nonempty local comparison list (a just-run live
comparison), switching to the comparison tab still issues the stored-analyses
fetch, and its normalization (here: a payload without analyses) overwrites the
live result with the empty list — the fetch is not conditional on the queue
being empty. -/
theorem setActiveTab_unconditional_fetch_counterexample :
    sLive.comparisons ≠ [] ∧
      (setActiveTab sLive "comparison" (.ok ⟨none⟩)).2 = true ∧
      (setActiveTab sLive "comparison" (.ok ⟨none⟩)).1.comparisons = [] := by
  refine ⟨?_, rfl, rfl⟩
  decide

/-- C2 amended: a transition to any tab other than `comparison` only records
the new tab and is side-effect-free (no fetch); a transition to `comparison`
always issues the fetch-and-normalize of stored analyses, regardless of the
local comparison list. -/
theorem setActiveTab_transitions {P A C : Type} (s : PageState P A C)
    (tabId : String) (f : Except JsError (StoredPayload P A)) :
    (tabId ≠ "comparison" → setActiveTab s tabId f = ({ s with activeTab := tabId }, false)) ∧
      setActiveTab s "comparison" f
        = (loadStoredComparisons { s with activeTab := "comparison" } f, true) := by
  constructor
  · intro h
    simp [setActiveTab, h]
  · simp [setActiveTab]

theorem setActiveTab_transitions_witness :
    setActiveTab sLive "results" (.ok ⟨none⟩) = ({ sLive with activeTab := "results" }, false) ∧
      setActiveTab sLive "comparison" (.ok ⟨none⟩)
        = (loadStoredComparisons { sLive with activeTab := "comparison" } (.ok ⟨none⟩), true) :=
  ⟨(setActiveTab_transitions sLive "results" (.ok ⟨none⟩)).1 (by decide),
   (setActiveTab_transitions sLive "comparison" (.ok ⟨none⟩)).2⟩

/-- C6: normalizing a stored-analyses payload with at least 2 elements yields
the order-preserving remap of each `{input, results}` to `{process, lca}`;
fewer than 2 elements, or a payload without the `analyses` key, normalize to
the empty list rather than failing. -/
theorem loadStoredComparisons_normalizes {P A C : Type} (s : PageState P A C)
    (xs : List (AnalysisEntry P A)) :
    (2 ≤ xs.length →
      (loadStoredComparisons s (.ok ⟨some xs⟩)).comparisons
        = xs.map fun a => ⟨a.input, a.results⟩) ∧
      (xs.length < 2 → (loadStoredComparisons s (.ok ⟨some xs⟩)).comparisons = []) ∧
      (loadStoredComparisons s (.ok ⟨none⟩)).comparisons = [] := by
  refine ⟨?_, ?_, rfl⟩
  · intro h
    simp [loadStoredComparisons, h]
  · intro h
    have h2 : ¬ 2 ≤ xs.length := by omega
    simp [loadStoredComparisons, h2]

theorem loadStoredComparisons_normalizes_witness :
    (loadStoredComparisons s0 (.ok ⟨some [⟨1, 10⟩, ⟨2, 20⟩]⟩)).comparisons
        = ([⟨1, 10⟩, ⟨2, 20⟩] : List (AnalysisEntry ℕ ℕ)).map (fun a => ⟨a.input, a.results⟩) ∧
      (loadStoredComparisons s0 (.ok ⟨some [⟨1, 10⟩]⟩)).comparisons = [] :=
  ⟨(loadStoredComparisons_normalizes s0 [⟨1, 10⟩, ⟨2, 20⟩]).1 (by decide),
   (loadStoredComparisons_normalizes s0 [⟨1, 10⟩]).2.1 (by decide)⟩

/-- C7: the compare-response normalization treats `{scenarios: X}` and
`{comparisons: X}` identically (both yield `X`), prefers `scenarios` when both
keys are present, and yields the empty list when neither key is present. -/
theorem compare_payload_normalization {P A C : Type} (s : PageState P A C)
    (X Y : List (ComparisonEntry P A)) :
    (handleComparisonRequest s (.ok ⟨some X, none⟩)).comparisons = X ∧
      (handleComparisonRequest s (.ok ⟨none, some X⟩)).comparisons = X ∧
      (handleComparisonRequest s (.ok ⟨some X, some Y⟩)).comparisons = X ∧
      (handleComparisonRequest s (.ok ⟨none, none⟩)).comparisons = [] :=
  ⟨rfl, rfl, rfl, rfl⟩

/-! ### ApiService: request configuration and error rethrowing -/

/-- The axios instance configuration created in the ApiService constructor. -/
structure ClientConfig where
  baseURL : String
  timeout : ℕ
  contentType : String
deriving DecidableEq, Repr

/-- The configuration passed to `axios.create` in the source. -/
def apiClientConfig : ClientConfig :=
  { baseURL := "http://localhost:8000", timeout := 30000, contentType := "application/json" }

/-- One HTTP request as issued through the shared client: method, path, and
the timeout inherited from the client configuration. -/
structure HttpRequest where
  method : String
  path : String
  timeout : ℕ
deriving DecidableEq, Repr

/-- A request issued through `this.client`, which attaches the instance
timeout. -/
def clientRequest (method path : String) : HttpRequest :=
  { method := method, path := path, timeout := apiClientConfig.timeout }

/-- The requests issued by the eleven ApiService operations, in source order
(the circularity-graph path shown for a representative id). -/
def apiServiceRequests : List HttpRequest :=
  [clientRequest "GET" "/api/health",
   clientRequest "GET" "/api/metals",
   clientRequest "POST" "/api/lca/analyze",
   clientRequest "POST" "/api/circularity/analyze",
   clientRequest "GET" "/api/circularity/graph/1",
   clientRequest "POST" "/api/compare",
   clientRequest "POST" "/api/report/generate",
   clientRequest "GET" "/api/model/metrics",
   clientRequest "GET" "/api/comparisons",
   clientRequest "GET" "/api/data/mock",
   clientRequest "POST" "/api/data/simulate"]

/-- The error body of an HTTP response received with a non-2xx status. -/
structure AxiosErrorResponse where
  status : ℕ
  detail : Option String
deriving DecidableEq, Repr

/-- An axios failure: `response` is present exactly when an HTTP response was
received (application-level failure); it is absent for transport failures such
as no connection or the 30s timeout elapsing. -/
structure AxiosError where
  message : String
  response : Option AxiosErrorResponse
deriving DecidableEq, Repr

/-- Modelled from the spec: the `kind` tag of the `ServiceError` taxonomy the
specification ascribes to the Gateway, classifying each failure as `transport`
or `application`.  The source has no counterpart of this tag. -/
inductive ErrorKind where
  | transport
  | application
deriving DecidableEq, Repr

/-- Modelled from the spec: the kind of an axios failure — `application` when
an HTTP response with a non-2xx status was received, `transport` otherwise. -/
def axiosKind (e : AxiosError) : ErrorKind :=
  if e.response.isSome then .application else .transport

/-- The JavaScript expression `error.response?.data?.detail || error.message`:
the response detail when present and truthy (nonempty), else the message. -/
def axiosDetailOrMessage (e : AxiosError) : String :=
  match e.response.bind (fun r => r.detail) with
  | some d => if d == "" then e.message else d
  | none => e.message

/-- The `Error` rethrown by `analyzeLCA` on any failure: a fixed prefix plus
the detail-or-message text, and nothing else. -/
def analyzeLCAError (e : AxiosError) : JsError :=
  ⟨"LCA analysis failed: " ++ axiosDetailOrMessage e⟩

/-- The `Error` rethrown by `analyzeCircularity` on any failure. -/
def analyzeCircularityError (e : AxiosError) : JsError :=
  ⟨"Circularity analysis failed: " ++ axiosDetailOrMessage e⟩

/-- The `Error` rethrown by `checkHealth`: prefix plus `error.message` only —
any response body is discarded. -/
def checkHealthError (e : AxiosError) : JsError :=
  ⟨"Health check failed: " ++ e.message⟩

/-- The `Error` rethrown by `getSupportedMetals`: prefix plus `error.message`. -/
def getSupportedMetalsError (e : AxiosError) : JsError :=
  ⟨"Failed to get supported metals: " ++ e.message⟩

/-- The `Error` rethrown by `getCircularityGraph`: prefix plus `error.message`. -/
def getCircularityGraphError (e : AxiosError) : JsError :=
  ⟨"Failed to get circularity graph: " ++ e.message⟩

/-- The `Error` rethrown by `compareProcesses`: prefix plus `error.message`. -/
def compareProcessesError (e : AxiosError) : JsError :=
  ⟨"Process comparison failed: " ++ e.message⟩

/-- The `Error` rethrown by `generateReport`: prefix plus `error.message`. -/
def generateReportError (e : AxiosError) : JsError :=
  ⟨"Report generation failed: " ++ e.message⟩

/-- The `Error` rethrown by `getModelMetrics`: prefix plus `error.message`. -/
def getModelMetricsError (e : AxiosError) : JsError :=
  ⟨"Failed to get model metrics: " ++ e.message⟩

/-- The `Error` rethrown by `getStoredComparisons`: prefix plus `error.message`. -/
def getStoredComparisonsError (e : AxiosError) : JsError :=
  ⟨"Failed to get stored comparisons: " ++ e.message⟩

/-- The `Error` rethrown by `getMockData`: prefix plus `error.message`. -/
def getMockDataError (e : AxiosError) : JsError :=
  ⟨"Failed to get mock data: " ++ e.message⟩

/-- The `Error` rethrown by `simulateScenarios`: prefix plus `error.message`. -/
def simulateScenariosError (e : AxiosError) : JsError :=
  ⟨"Scenario simulation failed: " ++ e.message⟩

/-- The failure-rethrowing wrappers of the eleven ApiService operations, in
source order. -/
def apiServiceErrorWrappers : List (AxiosError → JsError) :=
  [checkHealthError, getSupportedMetalsError, analyzeLCAError, analyzeCircularityError,
   getCircularityGraphError, compareProcessesError, generateReportError,
   getModelMetricsError, getStoredComparisonsError, getMockDataError,
   simulateScenariosError]

/-- C9 counterexample: a transport failure (no response received) and an
application failure (HTTP 500 with an error body) are rethrown by `analyzeLCA`
as literally equal `Error` values — the reported error carries only a message,
so it carries neither the status nor any `kind` tag distinguishing the two
kinds, contradicting the claimed `ServiceError` taxonomy. -/
theorem gateway_error_kind_counterexample :
    axiosKind ⟨"boom", none⟩ = ErrorKind.transport ∧
      axiosKind ⟨"Request failed with status code 500", some ⟨500, some "boom"⟩⟩
        = ErrorKind.application ∧
      analyzeLCAError ⟨"boom", none⟩
        = analyzeLCAError ⟨"Request failed with status code 500", some ⟨500, some "boom"⟩⟩ := by
  refine ⟨rfl, rfl, ?_⟩
  decide

/-- C9 amended: every ApiService operation issues its request through the
shared client, whose configuration bounds it by a 30000 ms timeout; every
failure — transport and application alike — is rethrown as a plain `Error`
carrying only a message.  For `analyzeLCA` and `analyzeCircularity` that
message is the per-operation prefix plus the response detail when present,
else the underlying message; each of the other nine wrappers appends the
underlying message alone and discards the response (status and detail)
entirely.  Consequently every wrapper output is a function of the failure's
text only — never of its kind or status — so differently-kinded failures with
equal text are indistinguishable to the caller. -/
theorem gateway_timeout_and_error_shape :
    (∀ r ∈ apiServiceRequests, r.timeout = 30000) ∧
      (∀ e : AxiosError,
        analyzeLCAError e = ⟨"LCA analysis failed: " ++ axiosDetailOrMessage e⟩ ∧
          analyzeCircularityError e
            = ⟨"Circularity analysis failed: " ++ axiosDetailOrMessage e⟩) ∧
      (∀ e : AxiosError,
        checkHealthError e = checkHealthError ⟨e.message, none⟩ ∧
          getSupportedMetalsError e = getSupportedMetalsError ⟨e.message, none⟩ ∧
          getCircularityGraphError e = getCircularityGraphError ⟨e.message, none⟩ ∧
          compareProcessesError e = compareProcessesError ⟨e.message, none⟩ ∧
          generateReportError e = generateReportError ⟨e.message, none⟩ ∧
          getModelMetricsError e = getModelMetricsError ⟨e.message, none⟩ ∧
          getStoredComparisonsError e = getStoredComparisonsError ⟨e.message, none⟩ ∧
          getMockDataError e = getMockDataError ⟨e.message, none⟩ ∧
          simulateScenariosError e = simulateScenariosError ⟨e.message, none⟩) ∧
      (∀ w ∈ apiServiceErrorWrappers, ∀ e e' : AxiosError,
        e.message = e'.message → axiosDetailOrMessage e = axiosDetailOrMessage e' →
          w e = w e') := by
  refine ⟨?_, fun e => ⟨rfl, rfl⟩,
    fun e => ⟨rfl, rfl, rfl, rfl, rfl, rfl, rfl, rfl, rfl⟩, ?_⟩
  · intro r hr
    simp only [apiServiceRequests, List.mem_cons, List.not_mem_nil, or_false] at hr
    rcases hr with h | h | h | h | h | h | h | h | h | h | h <;> subst h <;> rfl
  · intro w hw e e' hmsg hdet
    simp only [apiServiceErrorWrappers, List.mem_cons, List.not_mem_nil, or_false] at hw
    rcases hw with h | h | h | h | h | h | h | h | h | h | h <;> subst h <;>
      simp [checkHealthError, getSupportedMetalsError, analyzeLCAError,
        analyzeCircularityError, getCircularityGraphError, compareProcessesError,
        generateReportError, getModelMetricsError, getStoredComparisonsError,
        getMockDataError, simulateScenariosError, hmsg, hdet]

theorem gateway_timeout_and_error_shape_witness :
    (clientRequest "POST" "/api/lca/analyze").timeout = 30000 ∧
      checkHealthError ⟨"boom", some ⟨500, some "ignored detail"⟩⟩
        = checkHealthError ⟨"boom", none⟩ ∧
      compareProcessesError ⟨"boom", none⟩
        = compareProcessesError ⟨"boom", some ⟨404, none⟩⟩ :=
  ⟨gateway_timeout_and_error_shape.1 (clientRequest "POST" "/api/lca/analyze")
      (by simp [apiServiceRequests]),
   (gateway_timeout_and_error_shape.2.2.1 ⟨"boom", some ⟨500, some "ignored detail"⟩⟩).1,
   gateway_timeout_and_error_shape.2.2.2 compareProcessesError
      (by simp [apiServiceErrorWrappers]) ⟨"boom", none⟩ ⟨"boom", some ⟨404, none⟩⟩ rfl rfl⟩

end LCATool
